import Mathlib

/-!
Shallow embedding of the cache / rate-limit subsystem of the OtakuShelf
backend (`src/backend/src/cache.py` and `src/backend/src/rate_limit.py`).

Modelling conventions:

* Time is `Int` (seconds since the epoch).  `cache.py` uses `time.time()`
  (a real number) and `rate_limit.py` uses `int(time.time())`; all the
  comparisons involved (`<`, `<=`, subtraction) behave identically over the
  integer subset, and every property below is stated at whole seconds.
* JSON-serializable Python values are the inductive `Json` below.
  `json.dumps` / `json.loads` form a bijection between this fragment and its
  serializations, and the backing store holds the serialized bytes opaquely,
  so the store is modelled as holding the `Json` value itself.  The Python
  check `if value:` on the bytes returned by `redis.get` distinguishes only
  `nil` (absent) from a stored value, because a serialization is never the
  empty string; the model reflects exactly that.
* Python's single `None` serves both as the stored value `null` and as the
  "absent" result of `Cache.get`; the model therefore has `Cache.get`
  return a `Json`, with `Json.null` being the absent signal, exactly as the
  Python caller observes it.
* Each backing-store map `String → Option _` stands for the Python dict
  (in-memory backend) or the Redis keyspace (shared-store backend).
* The Redis commands issued by the source (`SETEX`, `GET`,
  `ZREMRANGEBYSCORE key 0 cutoff`, `ZADD key {str(now): now}`, `ZCARD`,
  `EXPIRE`, `DEL`) are modelled with their documented semantics.  In
  particular a sorted-set member is the *string* `str(timestamp)`; since
  `str` is injective on integers the member set is modelled as the list of
  distinct timestamp values, and `ZADD` of an already-present member
  replaces it (the cardinality does not change).
* A backing-store failure (network error, etc.) is injected through the
  `fail : Bool` parameter of each public operation: `fail = true` means the
  store interaction of this call raises, which the source catches with
  `except Exception` and turns into the documented safe default.  The
  in-memory branches perform no fallible store call, so they ignore `fail`.
-/

namespace OtakuShelf

/-- JSON-serializable Python values (the fragment `json.dumps` accepts,
with integer numerics). -/
inductive Json where
  | null
  | bool (b : Bool)
  | num (n : Int)
  | str (s : String)
  | arr (elems : List Json)
  | obj (fields : List (String × Json))

/-- Python's `value is None` test (`None` is `Json.null` here). -/
def Json.isNull : Json → Bool
  | .null => true
  | _ => false

/-- Python's `ttl or d` on an `Optional[int]`: `None` and `0` are falsy. -/
def pyOrInt (t : Option Int) (d : Int) : Int :=
  match t with
  | none => d
  | some v => if v = 0 then d else v

/-- Python truthiness of an `Optional[int]` (`if ttl:`). -/
def pyTruthy (t : Option Int) : Bool :=
  match t with
  | none => false
  | some v => v != 0

/-- Point update of a string-keyed partial map. -/
def upd {α : Type} (m : String → Option α) (k : String) (v : Option α) :
    String → Option α :=
  fun x => if x = k then v else m x

/-! ## Cache (`src/backend/src/cache.py`)

In-memory entries are `(value, expiry)` with `expiry : Option Int` an
absolute time or `None`; shared-store entries are `(value, expireAt)` with
the absolute expiry always set, because the source always writes through
`SETEX`. -/

/-- The state of a `Cache` instance: the one-time backend decision made in
`Cache.__init__` together with that backend's store. -/
inductive CacheSt where
  | mem (m : String → Option (Json × Option Int))
  | redis (r : String → Option (Json × Int))

/-- Model of `Cache.get` (cache.py lines 40-59).  Returns the Python result
(`Json.null` = absent) and the post state: an in-memory entry whose expiry
has passed is deleted by the read. -/
def cacheGet (st : CacheSt) (key : String) (now : Int) (fail : Bool) :
    Json × CacheSt :=
  match st with
  | .redis r =>
    if fail then (Json.null, st)
    else
      match r key with
      | some (v, e) => if now < e then (v, st) else (Json.null, st)
      | none => (Json.null, st)
  | .mem m =>
    match m key with
    | some (v, e) =>
      match e with
      | none => (v, st)
      | some ex =>
        if now < ex then (v, st)
        else (Json.null, .mem (upd m key none))
    | none => (Json.null, st)

/-- Model of `Cache.set` (cache.py lines 61-73).  The shared-store branch runs
`SETEX key (ttl or 3600) value`, which raises (caught, `False` returned)
when the computed expire time is not positive; the in-memory branch stores
`(value, time.time() + (ttl or 3600) if ttl else None)`. -/
def cacheSet (st : CacheSt) (key : String) (v : Json) (ttl : Option Int)
    (now : Int) (fail : Bool) : Bool × CacheSt :=
  match st with
  | .redis r =>
    if fail then (false, st)
    else
      let t := pyOrInt ttl 3600
      if t ≤ 0 then (false, st)
      else (true, .redis (upd r key (some (v, now + t))))
  | .mem m =>
    let expiry : Option Int :=
      if pyTruthy ttl then some (now + pyOrInt ttl 3600) else none
    (true, .mem (upd m key (some (v, expiry))))

/-- Model of `Cache.get_or_set` (cache.py lines 101-109).  The producer is modelled
by the value `p` it returns; the `Bool` component records whether the
producer was invoked on this call. -/
def getOrSet (st : CacheSt) (key : String) (p : Json) (ttl : Option Int)
    (now : Int) (fail : Bool) : Json × CacheSt × Bool :=
  let r1 := cacheGet st key now fail
  if (r1.1).isNull then
    let r2 := cacheSet r1.2 key p ttl now fail
    (p, r2.2, true)
  else
    (r1.1, r1.2, false)

/-! ## RateLimiter (`src/backend/src/rate_limit.py`)

The in-memory backend keeps, per key, the Python list
`self._memory_limits[key]` of recorded integer timestamps.  The shared
store keeps, per key, a Redis sorted set whose members are `str(ts)` with
score `ts` (represented by the list of distinct `ts` values), plus the
absolute expire time set by the `EXPIRE` command of the last `is_allowed`
pipeline (`none` when the key has never been given a TTL). -/

/-- One Redis sorted-set key as used by the limiter: its distinct
timestamp members and the key's absolute expire time, if any. -/
structure ZKey where
  members : List Int
  expireAt : Option Int

/-- The state of a `RateLimiter` instance: the one-time backend decision of
`RateLimiter.__init__` together with that backend's store. -/
inductive RLSt where
  | mem (m : String → Option (List Int))
  | redis (r : String → Option ZKey)

/-- The comprehension `[ts for ts in l if ts > cutoff]` (rate_limit.py lines 78-80). -/
def memTrim (l : List Int) (cutoff : Int) : List Int :=
  l.filter (fun ts => decide (cutoff < ts))

/-- Redis key liveness at time `now`: a key whose expire time has passed
behaves as absent for every subsequent command. -/
def zlive (r : String → Option ZKey) (key : String) (now : Int) :
    Option ZKey :=
  match r key with
  | some zk =>
    match zk.expireAt with
    | some e => if e ≤ now then none else some zk
    | none => some zk
  | none => none

/-- Command `ZREMRANGEBYSCORE key 0 cutoff`: drops the members whose score lies in
the closed interval `[0, cutoff]` (rate_limit.py lines 59 and 102). -/
def zrem (ms : List Int) (cutoff : Int) : List Int :=
  ms.filter (fun ts => !(decide (0 ≤ ts) && decide (ts ≤ cutoff)))

/-- Command `ZADD key \x7bstr(now): now\x7d`: adds the member `str(now)`; when that
member is already present only its (identical) score is rewritten, so the
member list is unchanged (rate_limit.py line 61). -/
def zaddNow (ms : List Int) (now : Int) : List Int :=
  if now ∈ ms then ms else ms ++ [now]

/-- Model of `RateLimiter.is_allowed` (rate_limit.py lines 40-92).  Returns the
admission decision and the post state.  On a raising store call the source
logs and returns `True` with the pipeline never applied (fail open). -/
def isAllowed (st : RLSt) (key : String) (limit window now : Int)
    (fail : Bool) : Bool × RLSt :=
  match st with
  | .redis r =>
    if fail then (true, st)
    else
      let ms0 := match zlive r key now with
        | some zk => zk.members
        | none => []
      let ms1 := zrem ms0 (now - window)
      let ms2 := zaddNow ms1 now
      ((ms2.length : Int) ≤ limit,
        .redis (upd r key (some ⟨ms2, some (now + window)⟩)))
  | .mem m =>
    let l0 := (m key).getD []
    let l1 := memTrim l0 (now - window)
    if (l1.length : Int) < limit then
      (true, .mem (upd m key (some (l1 ++ [now]))))
    else
      (false, .mem (upd m key (some l1)))

/-- Model of `RateLimiter.get_remaining_requests` (rate_limit.py lines 94-119).
The shared-store branch persists the trim (`ZREMRANGEBYSCORE` then
`ZCARD`, no insert, key TTL untouched, an emptied sorted set disappears);
the in-memory branch only counts, writing nothing.  On error the full
`limit` is returned. -/
def getRemaining (st : RLSt) (key : String) (limit window now : Int)
    (fail : Bool) : Int × RLSt :=
  match st with
  | .redis r =>
    if fail then (limit, st)
    else
      match zlive r key now with
      | some zk =>
        let ms1 := zrem zk.members (now - window)
        let r1 := if ms1.isEmpty then upd r key none
          else upd r key (some ⟨ms1, zk.expireAt⟩)
        (max 0 (limit - (ms1.length : Int)), .redis r1)
      | none => (max 0 (limit - 0), .redis (upd r key none))
  | .mem m =>
    let count : Int := match m key with
      | some l => ((memTrim l (now - window)).length : Int)
      | none => 0
    (max 0 (limit - count), st)

/-- Model of `RateLimiter.reset_limit` (rate_limit.py lines 121-133).  `DEL key` on
the shared store returns the number of keys removed; the in-memory branch
deletes the dict entry when present. -/
def resetLimit (st : RLSt) (key : String) (now : Int) (fail : Bool) :
    Bool × RLSt :=
  match st with
  | .redis r =>
    if fail then (false, st)
    else
      match zlive r key now with
      | some _ => (true, .redis (upd r key none))
      | none => (false, st)
  | .mem m =>
    match m key with
    | some _ => (true, .mem (upd m key none))
    | none => (false, st)

/-- Timestamps recorded for `key` in a limiter state (members for the
shared store, the Python list for the in-memory store). -/
def recorded (st : RLSt) (key : String) : List Int :=
  match st with
  | .redis r => match r key with
    | some zk => zk.members
    | none => []
  | .mem m => (m key).getD []

/-- Run a sequence of `is_allowed` calls (one per listed call time) on the
same key and collect the returned decisions. -/
def runIsAllowed (st : RLSt) (key : String) (limit window : Int)
    (calls : List Int) : List Bool × RLSt :=
  match calls with
  | [] => ([], st)
  | t :: ts =>
    let r := isAllowed st key limit window t false
    let rest := runIsAllowed r.2 key limit window ts
    (r.1 :: rest.1, rest.2)

/-- Entry stored for `key` in a cache state, as `(value, expiry)` (the
shared store's expire time shown as an always-`some` expiry). -/
def cacheEntry (st : CacheSt) (key : String) : Option (Json × Option Int) :=
  match st with
  | .mem m => m key
  | .redis r => (r key).map (fun p => (p.1, some p.2))

/-- Members of the key's live sorted set at time `now` (empty when the key
is absent or its expire time has passed), exactly the collection the
source's pipeline starts from. -/
def zmembers (r : String → Option ZKey) (key : String) (now : Int) :
    List Int :=
  match zlive r key now with
  | some zk => zk.members
  | none => []

/-- The empty in-memory cache store of a freshly constructed `Cache`. -/
def memCache0 : String → Option (Json × Option Int) := fun _ => none

/-- The empty shared-store keyspace of a freshly constructed `Cache`. -/
def redisCache0 : String → Option (Json × Int) := fun _ => none

/-- The empty in-memory store of a freshly constructed `RateLimiter`. -/
def memRL0 : String → Option (List Int) := fun _ => none

/-- The empty shared-store keyspace of a freshly constructed
`RateLimiter`. -/
def redisRL0 : String → Option ZKey := fun _ => none

/-! ## Theorems for the claims -/

/-- C1.  The claim fails on the shared-store backend: six `is_allowed`
calls on a fresh key with `limit = 5, window = 300` all made within the
same epoch second (immediate succession) every one return `true` — the
sixth call is admitted, because each call's `ZADD` rewrites the same
sorted-set member `str(now)` and `ZCARD` stays at 1.  The in-memory
fallback branch of the very same function blocks the sixth call, as the
claim (and the module's own documentation: `limit: Maximum number of
requests allowed`) demands. -/
theorem c1_shared_store_burst_never_blocked :
    (runIsAllowed (.redis redisRL0) "login:user1" 5 300
      [1000, 1000, 1000, 1000, 1000, 1000]).1 =
      [true, true, true, true, true, true]
    ∧ (runIsAllowed (.mem memRL0) "login:user1" 5 300
      [1000, 1000, 1000, 1000, 1000, 1000]).1 =
      [true, true, true, true, true, false] := by
  constructor <;> decide

/-- C3.  The claim fails on the in-memory backend: `set("k", "v")` with
the TTL omitted stores the entry with `expiry = None` (the `or 3600`
default is dead code under the guard `if ttl`), so `get("k")` still
returns `"v"` at 3600 seconds — and at any later time — after the set,
never absent. -/
theorem c3_default_ttl_never_expires_in_memory :
    cacheEntry (cacheSet (.mem memCache0) "k" (.str "v") none 0 false).2
      "k" = some (.str "v", none)
    ∧ (cacheGet (cacheSet (.mem memCache0) "k" (.str "v") none 0 false).2
      "k" 3600 false).1 = Json.str "v"
    ∧ (cacheGet (cacheSet (.mem memCache0) "k" (.str "v") none 0 false).2
      "k" 1000000000 false).1 = Json.str "v" := by
  refine ⟨rfl, rfl, rfl⟩

/-- C4.  Fail-open defaults: when the backing store raises during a call
(`fail = true`), `Cache.get` returns absent, `Cache.set` returns `false`,
`RateLimiter.is_allowed` returns `true` and
`RateLimiter.get_remaining_requests` returns the full limit, each leaving
the state untouched — no operation propagates the error. -/
theorem c4_fail_open_defaults (r : String → Option (Json × Int))
    (rl : String → Option ZKey) (key k : String) (v : Json)
    (ttl : Option Int) (now limit window : Int) :
    cacheGet (.redis r) key now true = (Json.null, .redis r)
    ∧ cacheSet (.redis r) key v ttl now true = (false, .redis r)
    ∧ isAllowed (.redis rl) k limit window now true = (true, .redis rl)
    ∧ getRemaining (.redis rl) k limit window now true = (limit, .redis rl)
    ∧ resetLimit (.redis rl) k now true = (false, .redis rl) := by
  refine ⟨rfl, rfl, rfl, rfl, rfl⟩

/-- C6.  The claim fails on the shared-store backend: with
`limit = 5, window = 300`, two admitted calls in the same epoch second
leave `get_remaining_requests` at 4 after each of them (the second call's
`ZADD` rewrites the same member, so the in-window count stays 1), whereas
the claim says remaining decreases by 1 per admitted call (to 3). -/
theorem c6_remaining_not_decremented_same_second :
    (isAllowed (.redis redisRL0) "k" 5 300 1000 false).1 = true
    ∧ (getRemaining (isAllowed (.redis redisRL0) "k" 5 300 1000 false).2
        "k" 5 300 1000 false).1 = 4
    ∧ (isAllowed (isAllowed (.redis redisRL0) "k" 5 300 1000 false).2
        "k" 5 300 1000 false).1 = true
    ∧ (getRemaining
        (isAllowed (isAllowed (.redis redisRL0) "k" 5 300 1000 false).2
          "k" 5 300 1000 false).2 "k" 5 300 1000 false).1 = 4 := by
  refine ⟨by decide, by decide, by decide, by decide⟩

/-- Modelled from the spec's words, for comparison with the source (claim
C7): the number of recorded timestamps lying inside the *closed* window
`[now - window, now]` the claim describes. -/
def countClosedWindow (l : List Int) (window now : Int) : Int :=
  ((l.filter
    (fun ts => decide (now - window ≤ ts) && decide (ts ≤ now))).length : Int)

/-- C2, counterexample.  A TTL of `0` does not make the entry immediately
absent: in the in-memory backend `set("k", "v", ttl=0)` falls into the
falsy branch of `if ttl` and stores `expiry = None`, so `get("k")` still
returns `"v"` arbitrarily far in the future, and the entry is never
purged. -/
theorem c2_zero_ttl_not_expired :
    cacheEntry (cacheSet (.mem memCache0) "k" (.str "v") (some 0) 10
      false).2 "k" = some (.str "v", none)
    ∧ (cacheGet (cacheSet (.mem memCache0) "k" (.str "v") (some 0) 10
      false).2 "k" 1000000 false).1 = Json.str "v"
    ∧ ((cacheGet (cacheSet (.mem memCache0) "k" (.str "v") (some 0) 10
      false).2 "k" 1000000 false).1).isNull = false := by
  refine ⟨rfl, rfl, rfl⟩

/-- C7, counterexample.  The window is half-open, not the closed
`[now - window, now]` of the claim: a key whose single recorded timestamp
is exactly `window` seconds old (`ts = now - window = 40`, inside the
claim's closed window) is admitted with `limit = 1` because the trim
`ts > cutoff` discards that timestamp, while the claim's closed-window
count is 1 and would deny the call under the in-memory admission rule
`count < limit`. -/
theorem c7_closed_window_boundary_refuted :
    (isAllowed (.mem (upd memRL0 "k" (some [40]))) "k" 1 40 80
      false).1 = true
    ∧ recorded (isAllowed (.mem (upd memRL0 "k" (some [40])))
      "k" 1 40 80 false).2 "k" = [80]
    ∧ countClosedWindow [40] 40 80 = 1
    ∧ ¬(countClosedWindow [40] 40 80 < (1 : Int)) := by
  refine ⟨by decide, by decide, by decide, by decide⟩

/-- C8, counterexample.  A denied call does not leave the recorded
timestamps unchanged in the shared-store backend: with `limit = 1` and one
in-window member `1000`, the call at `now = 1001` is denied (`ZCARD`
returns 2 > 1) yet its pipeline's `ZADD` has already inserted the member
`1001` — trimming removed nothing here, so the change is a genuine
recording on denial. -/
theorem c8_denied_call_records_in_shared_store :
    (isAllowed (.redis (upd redisRL0 "k" (some ⟨[1000], some 1060⟩)))
      "k" 1 60 1001 false).1 = false
    ∧ recorded (isAllowed
        (.redis (upd redisRL0 "k" (some ⟨[1000], some 1060⟩)))
        "k" 1 60 1001 false).2 "k" = [1000, 1001]
    ∧ zrem [1000] (1001 - 60) = [1000] := by
  refine ⟨by decide, by decide, by decide⟩

/-- C9, counterexample.  `reset_limit` can return `true` although no
timestamp was ever recorded for the key: a single denied in-memory call
with `limit = 0` creates the key bound to the empty list (the `if key not
in` initialisation followed by the trimming write), and the subsequent
reset deletes that entry and reports `true`. -/
theorem c9_reset_true_without_recorded_timestamps :
    (isAllowed (.mem memRL0) "k" 0 60 100 false).1 = false
    ∧ recorded (isAllowed (.mem memRL0) "k" 0 60 100 false).2 "k" = []
    ∧ (resetLimit (isAllowed (.mem memRL0) "k" 0 60 100 false).2
      "k" 100 false).1 = true := by
  refine ⟨by decide, by decide, by decide⟩

/-- C5.  Set-then-get round trip: with the backing store succeeding, a
`set(k, v, ttl)` read back by `get(k)` before `ttl` has elapsed returns a
value equal to `v`, on either backend. -/
theorem c5_set_then_get_roundtrip (m : String → Option (Json × Option Int))
    (r : String → Option (Json × Int)) (k : String) (v : Json)
    (ttl tset tget : Int) (hle : tset ≤ tget) (hin : tget - tset < ttl) :
    (cacheSet (.mem m) k v (some ttl) tset false).1 = true
    ∧ (cacheGet (cacheSet (.mem m) k v (some ttl) tset false).2 k tget
        false).1 = v
    ∧ (cacheSet (.redis r) k v (some ttl) tset false).1 = true
    ∧ (cacheGet (cacheSet (.redis r) k v (some ttl) tset false).2 k tget
        false).1 = v := by
  have hne : ttl ≠ 0 := by omega
  have hlt : tget < tset + ttl := by omega
  have hnle : ¬(ttl ≤ 0) := by omega
  simp [cacheSet, cacheGet, upd, pyTruthy, pyOrInt, hne, hlt, hnle]

/-- C5, witness: `Cache.set("user:profile:42", obj, ttl=10)` at time 0
followed by `Cache.get` at time 5 returns the object on both backends. -/
theorem c5_set_then_get_roundtrip_witness :
    (0 : Int) ≤ 5 ∧ (5 : Int) - 0 < 10
    ∧ ((cacheSet (.mem memCache0) "user:profile:42"
        (Json.obj [("name", Json.str "a")]) (some 10) 0 false).1 = true
      ∧ (cacheGet (cacheSet (.mem memCache0) "user:profile:42"
        (Json.obj [("name", Json.str "a")]) (some 10) 0 false).2
        "user:profile:42" 5 false).1 = Json.obj [("name", Json.str "a")]
      ∧ (cacheSet (.redis redisCache0) "user:profile:42"
        (Json.obj [("name", Json.str "a")]) (some 10) 0 false).1 = true
      ∧ (cacheGet (cacheSet (.redis redisCache0) "user:profile:42"
        (Json.obj [("name", Json.str "a")]) (some 10) 0 false).2
        "user:profile:42" 5 false).1 = Json.obj [("name", Json.str "a")]) :=
  ⟨by decide, by decide,
    c5_set_then_get_roundtrip memCache0 redisCache0 "user:profile:42"
      (Json.obj [("name", Json.str "a")]) 10 0 5 (by decide) (by decide)⟩

/-- C2 as amended.  Lazy expiry: with a positive ttl the entry is absent
once ttl seconds have elapsed since the set, and the in-memory read purges
it; a negative ttl makes the in-memory entry immediately expired while the
shared-store `SETEX` fails (set returns false, nothing stored); a ttl of
zero stores the entry with *no* expiry in-memory and with the 3600-second
default in the shared store — not "immediately absent" as claimed. -/
theorem c2_ttl_expiry_lazy_purge (m : String → Option (Json × Option Int))
    (r : String → Option (Json × Int)) (k : String) (v : Json)
    (ttl tset tget : Int) :
    (0 < ttl → tset + ttl ≤ tget →
      (cacheGet (cacheSet (.mem m) k v (some ttl) tset false).2 k tget
        false).1 = Json.null
      ∧ cacheEntry (cacheGet (cacheSet (.mem m) k v (some ttl) tset
        false).2 k tget false).2 k = none)
    ∧ (ttl < 0 → tset ≤ tget →
      (cacheGet (cacheSet (.mem m) k v (some ttl) tset false).2 k tget
        false).1 = Json.null
      ∧ cacheEntry (cacheGet (cacheSet (.mem m) k v (some ttl) tset
        false).2 k tget false).2 k = none)
    ∧ (0 < ttl → tset + ttl ≤ tget →
      (cacheGet (cacheSet (.redis r) k v (some ttl) tset false).2 k tget
        false).1 = Json.null)
    ∧ (ttl < 0 →
      cacheSet (.redis r) k v (some ttl) tset false = (false, .redis r))
    ∧ cacheEntry (cacheSet (.mem m) k v (some 0) tset false).2 k
        = some (v, none)
    ∧ cacheSet (.redis r) k v (some 0) tset false
        = (true, .redis (upd r k (some (v, tset + 3600)))) := by
  refine ⟨fun h1 h2 => ?_, fun h1 h2 => ?_, fun h1 h2 => ?_,
    fun h1 => ?_, ?_, ?_⟩
  · have hne : ttl ≠ 0 := by omega
    have hnlt : ¬(tget < tset + ttl) := by omega
    simp [cacheSet, cacheGet, cacheEntry, upd, pyTruthy, pyOrInt, hne, hnlt]
  · have hne : ttl ≠ 0 := by omega
    have hnlt : ¬(tget < tset + ttl) := by omega
    simp [cacheSet, cacheGet, cacheEntry, upd, pyTruthy, pyOrInt, hne, hnlt]
  · have hne : ttl ≠ 0 := by omega
    have hnlt : ¬(tget < tset + ttl) := by omega
    have hnle : ¬(ttl ≤ 0) := by omega
    simp [cacheSet, cacheGet, upd, pyOrInt, hne, hnlt, hnle]
  · have hne : ttl ≠ 0 := by omega
    have hle : ttl ≤ 0 := by omega
    simp [cacheSet, pyOrInt, hne, hle]
  · simp [cacheSet, cacheEntry, upd, pyTruthy]
  · rfl

/-- C2, witness: at ttl 5 the in-memory entry is absent and purged at time
5 after a set at time 0; at ttl -3 it is immediately absent while the
shared-store set returns false. -/
theorem c2_ttl_expiry_lazy_purge_witness :
    ((cacheGet (cacheSet (.mem memCache0) "k" (Json.str "x") (some 5) 0
        false).2 "k" 5 false).1 = Json.null
      ∧ cacheEntry (cacheGet (cacheSet (.mem memCache0) "k" (Json.str "x")
        (some 5) 0 false).2 "k" 5 false).2 "k" = none)
    ∧ ((cacheGet (cacheSet (.mem memCache0) "k" (Json.str "x") (some (-3))
        0 false).2 "k" 0 false).1 = Json.null
      ∧ cacheEntry (cacheGet (cacheSet (.mem memCache0) "k" (Json.str "x")
        (some (-3)) 0 false).2 "k" 0 false).2 "k" = none)
    ∧ (cacheGet (cacheSet (.redis redisCache0) "k" (Json.str "x") (some 5)
        0 false).2 "k" 5 false).1 = Json.null
    ∧ cacheSet (.redis redisCache0) "k" (Json.str "x") (some (-3)) 0 false
        = (false, .redis redisCache0) :=
  ⟨(c2_ttl_expiry_lazy_purge memCache0 redisCache0 "k" (Json.str "x") 5 0
      5).1 (by decide) (by decide),
    (c2_ttl_expiry_lazy_purge memCache0 redisCache0 "k" (Json.str "x")
      (-3) 0 0).2.1 (by decide) (by decide),
    (c2_ttl_expiry_lazy_purge memCache0 redisCache0 "k" (Json.str "x") 5 0
      5).2.2.1 (by decide) (by decide),
    (c2_ttl_expiry_lazy_purge memCache0 redisCache0 "k" (Json.str "x")
      (-3) 0 0).2.2.2.1 (by decide)⟩

/-- C7 as amended.  The admission decision and the remaining-count use a
count taken after trimming, and the window is the half-open
`(now - window, now]`: once every recorded timestamp of a key is at least
`window` seconds old the key is admitted again (with a positive limit), on
either backend — the shared-store side additionally needs the real-world
fact that recorded epoch timestamps are non-negative, because
`ZREMRANGEBYSCORE key 0 cutoff` only removes scores from 0 up. -/
theorem c7_halfopen_window_recovery (m : String → Option (List Int))
    (r : String → Option ZKey) (k : String) (limit w now : Int)
    (hl : 1 ≤ limit) :
    ((∀ ts ∈ (m k).getD [], ts + w ≤ now) →
      (isAllowed (.mem m) k limit w now false).1 = true)
    ∧ ((∀ ts ∈ zmembers r k now, 0 ≤ ts ∧ ts + w ≤ now) →
      (isAllowed (.redis r) k limit w now false).1 = true) := by
  constructor
  · intro hm
    have h1 : memTrim ((m k).getD []) (now - w) = [] := by
      simp only [memTrim, List.filter_eq_nil_iff]
      intro a ha
      simp only [decide_eq_true_eq]
      have := hm a ha
      omega
    have hpos : (0 : Int) < limit := by omega
    simp [isAllowed, h1, hpos]
  · intro hr
    cases hz : zlive r k now with
    | none =>
      simp only [isAllowed, hz]
      simp [zrem, zaddNow]
      omega
    | some zk =>
      have hr2 : ∀ ts ∈ zk.members, 0 ≤ ts ∧ ts + w ≤ now := by
        simpa [zmembers, hz] using hr
      have h1 : zrem zk.members (now - w) = [] := by
        simp only [zrem, List.filter_eq_nil_iff]
        intro a ha
        have := hr2 a ha
        simp [decide_eq_true_eq]
        omega
      simp only [isAllowed, hz, h1]
      simp [zaddNow]
      omega

/-- C7, witness: a key blocked at `limit = 1` whose single call is exactly
one window old is admitted again on both backends. -/
theorem c7_halfopen_window_recovery_witness :
    (1 : Int) ≤ 1
    ∧ (isAllowed (.mem (upd memRL0 "k" (some [900]))) "k" 1 100 1000
        false).1 = true
    ∧ (isAllowed (.redis (upd redisRL0 "k" (some ⟨[900], some 2000⟩)))
        "k" 1 100 1000 false).1 = true :=
  ⟨by decide,
    (c7_halfopen_window_recovery (upd memRL0 "k" (some [900]))
      (upd redisRL0 "k" (some ⟨[900], some 2000⟩)) "k" 1 100 1000
      (by decide)).1 (by decide),
    (c7_halfopen_window_recovery (upd memRL0 "k" (some [900]))
      (upd redisRL0 "k" (some ⟨[900], some 2000⟩)) "k" 1 100 1000
      (by decide)).2 (by decide)⟩

/-- C8 as amended.  The in-memory backend records the current timestamp
exactly when the call is allowed — a denied call leaves the key's list
equal to its trimmed value — while the shared-store backend inserts the
current timestamp unconditionally, on denied calls too. -/
theorem c8_record_iff_allowed_in_memory (m : String → Option (List Int))
    (r : String → Option ZKey) (k : String) (limit w now : Int) :
    ((isAllowed (.mem m) k limit w now false).1 = false →
      recorded (isAllowed (.mem m) k limit w now false).2 k
        = memTrim ((m k).getD []) (now - w))
    ∧ ((isAllowed (.mem m) k limit w now false).1 = true →
      recorded (isAllowed (.mem m) k limit w now false).2 k
        = memTrim ((m k).getD []) (now - w) ++ [now])
    ∧ now ∈ recorded (isAllowed (.redis r) k limit w now false).2 k := by
  refine ⟨?_, ?_, ?_⟩
  · intro h
    by_cases hc : ((memTrim ((m k).getD []) (now - w)).length : Int) < limit
    · simp [isAllowed, hc] at h
    · simp [isAllowed, hc, recorded, upd]
  · intro h
    by_cases hc : ((memTrim ((m k).getD []) (now - w)).length : Int) < limit
    · simp [isAllowed, hc, recorded, upd]
    · simp [isAllowed, hc] at h
  · simp [isAllowed, recorded, upd, zaddNow]
    split
    · assumption
    · simp

/-- C8, witness: with `limit = 1` and window 60 at time 100, a denied
in-memory call on a key holding `[95, 96]` leaves exactly the trimmed
list, an allowed in-memory call on a fresh key appends the timestamp, and
a shared-store call always inserts the current timestamp. -/
theorem c8_record_iff_allowed_in_memory_witness :
    ((isAllowed (.mem (upd memRL0 "k" (some [95, 96]))) "k" 1 60 100
        false).1 = false →
      recorded (isAllowed (.mem (upd memRL0 "k" (some [95, 96]))) "k" 1 60
        100 false).2 "k"
        = memTrim (((upd memRL0 "k" (some [95, 96])) "k").getD [])
          (100 - 60))
    ∧ ((isAllowed (.mem memRL0) "k" 1 60 100 false).1 = true →
      recorded (isAllowed (.mem memRL0) "k" 1 60 100 false).2 "k"
        = memTrim ((memRL0 "k").getD []) (100 - 60) ++ [100])
    ∧ (100 : Int) ∈ recorded (isAllowed (.redis redisRL0) "k" 1 60 100
        false).2 "k" :=
  ⟨(c8_record_iff_allowed_in_memory (upd memRL0 "k" (some [95, 96]))
      redisRL0 "k" 1 60 100).1,
    (c8_record_iff_allowed_in_memory memRL0 redisRL0 "k" 1 60 100).2.1,
    (c8_record_iff_allowed_in_memory memRL0 redisRL0 "k" 1 60 100).2.2⟩

/-- C9 as amended.  `reset_limit` deletes the key's entry and returns true
exactly when the key was present in the backing store (in-memory the key
can be present with an empty timestamp list, and reset still returns
true); afterwards the key is back at full quota: `get_remaining_requests`
returns the full (non-negative) limit and the next call is admitted for
any positive limit, on either backend. -/
theorem c9_reset_deletes_and_restores_quota
    (m : String → Option (List Int)) (r : String → Option ZKey)
    (k : String) (limit w now : Int) :
    ((resetLimit (.mem m) k now false).1 = (m k).isSome
      ∧ recorded (resetLimit (.mem m) k now false).2 k = []
      ∧ (0 ≤ limit → (getRemaining (resetLimit (.mem m) k now false).2
          k limit w now false).1 = limit)
      ∧ (1 ≤ limit → (isAllowed (resetLimit (.mem m) k now false).2
          k limit w now false).1 = true))
    ∧ ((resetLimit (.redis r) k now false).1 = (zlive r k now).isSome
      ∧ (0 ≤ limit → (getRemaining (resetLimit (.redis r) k now false).2
          k limit w now false).1 = limit)
      ∧ (1 ≤ limit → (isAllowed (resetLimit (.redis r) k now false).2
          k limit w now false).1 = true)) := by
  constructor
  · refine ⟨?_, ?_, fun h0 => ?_, fun h1 => ?_⟩
    · cases hm : m k <;> simp [resetLimit, hm]
    · cases hm : m k <;> simp [resetLimit, hm, recorded, upd]
    · cases hm : m k <;>
        simp [resetLimit, hm, getRemaining, upd, memTrim] <;> omega
    · have hpos : (0 : Int) < limit := by omega
      cases hm : m k <;>
        simp [resetLimit, hm, isAllowed, upd, memTrim, hpos]
  · refine ⟨?_, fun h0 => ?_, fun h1 => ?_⟩
    · cases hz : zlive r k now <;> simp [resetLimit, hz]
    · cases hz : zlive r k now with
      | none =>
        simp [resetLimit, hz, getRemaining]
        omega
      | some zk =>
        have hz2 : zlive (upd r k none) k now = none := by simp [zlive, upd]
        simp [resetLimit, hz, getRemaining, hz2]
        omega
    · cases hz : zlive r k now with
      | none =>
        simp [resetLimit, hz, isAllowed, zrem, zaddNow]
        omega
      | some zk =>
        have hz2 : zlive (upd r k none) k now = none := by simp [zlive, upd]
        simp [resetLimit, hz, isAllowed, hz2, zrem, zaddNow]
        omega

/-- C9, witness: resetting a key holding five in-window timestamps at
`limit = 5` returns true and restores remaining 5 and admission, on both
backends. -/
theorem c9_reset_deletes_and_restores_quota_witness :
    ((resetLimit (.mem (upd memRL0 "k" (some [91, 92, 93, 94, 95]))) "k"
        100 false).1
        = ((upd memRL0 "k" (some [91, 92, 93, 94, 95])) "k").isSome
      ∧ recorded (resetLimit (.mem (upd memRL0 "k"
          (some [91, 92, 93, 94, 95]))) "k" 100 false).2 "k" = []
      ∧ (getRemaining (resetLimit (.mem (upd memRL0 "k"
          (some [91, 92, 93, 94, 95]))) "k" 100 false).2 "k" 5 300 100
          false).1 = 5
      ∧ (isAllowed (resetLimit (.mem (upd memRL0 "k"
          (some [91, 92, 93, 94, 95]))) "k" 100 false).2 "k" 5 300 100
          false).1 = true)
    ∧ ((resetLimit (.redis (upd redisRL0 "k"
          (some ⟨[91, 92, 93, 94, 95], some 400⟩))) "k" 100 false).1
        = (zlive (upd redisRL0 "k" (some ⟨[91, 92, 93, 94, 95], some 400⟩))
          "k" 100).isSome
      ∧ (getRemaining (resetLimit (.redis (upd redisRL0 "k"
          (some ⟨[91, 92, 93, 94, 95], some 400⟩))) "k" 100 false).2 "k" 5
          300 100 false).1 = 5
      ∧ (isAllowed (resetLimit (.redis (upd redisRL0 "k"
          (some ⟨[91, 92, 93, 94, 95], some 400⟩))) "k" 100 false).2 "k" 5
          300 100 false).1 = true) := by
  have h := c9_reset_deletes_and_restores_quota
    (upd memRL0 "k" (some [91, 92, 93, 94, 95]))
    (upd redisRL0 "k" (some ⟨[91, 92, 93, 94, 95], some 400⟩)) "k" 5 300
    100
  exact ⟨⟨h.1.1, h.1.2.1, h.1.2.2.1 (by decide), h.1.2.2.2 (by decide)⟩,
    ⟨h.2.1, h.2.2.1 (by decide), h.2.2.2 (by decide)⟩⟩

/-! ## Helper development for claim C10: a stored `None` is invisible -/

/-- Any value the cache holds at `k` is `null` (the cache may also hold
nothing at `k`). -/
def nullAt (st : CacheSt) (k : String) : Prop :=
  ∀ p, cacheEntry st k = some p → p.1 = Json.null

/-- Reading a key that holds at most `null` yields the absent signal and
preserves that the key holds at most `null`. -/
theorem nullAt_get (st : CacheSt) (k : String) (now : Int)
    (h : nullAt st k) :
    (cacheGet st k now false).1 = Json.null
    ∧ nullAt (cacheGet st k now false).2 k := by
  cases st with
  | mem m =>
    cases hm : m k with
    | none => simpa [cacheGet, hm] using h
    | some p =>
      obtain ⟨v, e⟩ := p
      have hv : v = Json.null := h (v, e) (by simp [cacheEntry, hm])
      subst hv
      cases e with
      | none => simpa [cacheGet, hm] using h
      | some ex =>
        by_cases hlt : now < ex
        · simpa [cacheGet, hm, hlt] using h
        · refine ⟨by simp [cacheGet, hm, hlt], ?_⟩
          intro p hp
          simp [cacheGet, hm, hlt, cacheEntry, upd] at hp
  | redis r =>
    cases hm : r k with
    | none => simpa [cacheGet, hm] using h
    | some p =>
      obtain ⟨v, e⟩ := p
      have hv : v = Json.null := h (v, some e) (by simp [cacheEntry, hm])
      subst hv
      by_cases hlt : now < e
      · simpa [cacheGet, hm, hlt] using h
      · simpa [cacheGet, hm, hlt] using h

/-- Writing `null` to a key that held at most `null` leaves it holding at
most `null`, whether or not the write succeeds. -/
theorem nullAt_set_any (st : CacheSt) (k : String) (ttl : Option Int)
    (now : Int) (fail : Bool) (h : nullAt st k) :
    nullAt (cacheSet st k Json.null ttl now fail).2 k := by
  cases st with
  | mem m =>
    intro p hp
    simp [cacheSet, cacheEntry, upd] at hp
    simp [← hp]
  | redis r =>
    cases fail with
    | true => simpa [cacheSet] using h
    | false =>
      by_cases ht : pyOrInt ttl 3600 ≤ 0
      · simpa [cacheSet, ht] using h
      · intro p hp
        simp [cacheSet, ht, cacheEntry, upd] at hp
        simp [← hp]

/-- An in-memory `set(k, None, ttl)` leaves `k` holding at most `null`. -/
theorem nullAt_set_mem (m : String → Option (Json × Option Int))
    (k : String) (ttl : Option Int) (now : Int) :
    nullAt (cacheSet (.mem m) k Json.null ttl now false).2 k := by
  intro p hp
  simp [cacheSet, cacheEntry, upd] at hp
  simp [← hp]

/-- A shared-store `set(k, None, ttl)` with a positive effective expire
time leaves `k` holding at most `null`. -/
theorem nullAt_set_redis (r : String → Option (Json × Int)) (k : String)
    (ttl : Option Int) (now : Int) (hr : 0 < pyOrInt ttl 3600) :
    nullAt (cacheSet (.redis r) k Json.null ttl now false).2 k := by
  intro p hp
  simp [cacheSet, show ¬(pyOrInt ttl 3600 ≤ 0) by omega, cacheEntry, upd]
    at hp
  simp [← hp]

/-- On a key holding at most `null`, `get_or_set` always invokes the
producer (the cached `None` is indistinguishable from a miss). -/
theorem getOrSet_null_invoked (st : CacheSt) (k : String) (p : Json)
    (ttl : Option Int) (now : Int) (h : nullAt st k) :
    (getOrSet st k p ttl now false).2.2 = true := by
  have h1 := (nullAt_get st k now h).1
  simp [getOrSet, h1, Json.isNull]

/-- A `get_or_set` whose producer returns `None` leaves the key holding at
most `null` again. -/
theorem getOrSet_null_preserves (st : CacheSt) (k : String)
    (ttl : Option Int) (now : Int) (h : nullAt st k) :
    nullAt (getOrSet st k Json.null ttl now false).2.1 k := by
  have h1 := nullAt_get st k now h
  simp [getOrSet, h1.1, Json.isNull]
  exact nullAt_set_any _ _ _ _ _ h1.2

/-- C10.  Storing `None` is indistinguishable from absence: after a
successful `set(k, None, ttl)` (on the shared store this needs the
effective expire time `ttl or 3600` to be positive), `get(k)` returns the
absent signal at every later time, and `get_or_set(k, producer, _)` with a
producer returning `None` invokes the producer on this call and again on
the next one — the `None` result is never effectively cached — on either
backend. -/
theorem c10_null_value_indistinguishable_from_absent
    (m : String → Option (Json × Option Int))
    (r : String → Option (Json × Int)) (k : String)
    (ttl ttl2 ttl3 : Option Int) (tset tget t2 : Int)
    (hr : 0 < pyOrInt ttl 3600) :
    (cacheSet (.mem m) k Json.null ttl tset false).1 = true
    ∧ (cacheGet (cacheSet (.mem m) k Json.null ttl tset false).2 k tget
        false).1 = Json.null
    ∧ (getOrSet (cacheSet (.mem m) k Json.null ttl tset false).2 k
        Json.null ttl2 tget false).2.2 = true
    ∧ (getOrSet (getOrSet (cacheSet (.mem m) k Json.null ttl tset
        false).2 k Json.null ttl2 tget false).2.1 k Json.null ttl3 t2
        false).2.2 = true
    ∧ (cacheSet (.redis r) k Json.null ttl tset false).1 = true
    ∧ (cacheGet (cacheSet (.redis r) k Json.null ttl tset false).2 k tget
        false).1 = Json.null
    ∧ (getOrSet (cacheSet (.redis r) k Json.null ttl tset false).2 k
        Json.null ttl2 tget false).2.2 = true
    ∧ (getOrSet (getOrSet (cacheSet (.redis r) k Json.null ttl tset
        false).2 k Json.null ttl2 tget false).2.1 k Json.null ttl3 t2
        false).2.2 = true := by
  have hm1 := nullAt_set_mem m k ttl tset
  have hr1 := nullAt_set_redis r k ttl tset hr
  refine ⟨rfl, (nullAt_get _ k tget hm1).1,
    getOrSet_null_invoked _ k Json.null ttl2 tget hm1,
    getOrSet_null_invoked _ k Json.null ttl3 t2
      (getOrSet_null_preserves _ k ttl2 tget hm1),
    by simp [cacheSet, show ¬(pyOrInt ttl 3600 ≤ 0) by omega],
    (nullAt_get _ k tget hr1).1,
    getOrSet_null_invoked _ k Json.null ttl2 tget hr1,
    getOrSet_null_invoked _ k Json.null ttl3 t2
      (getOrSet_null_preserves _ k ttl2 tget hr1)⟩

/-- C10, witness: concrete run at ttl 60 starting from empty stores. -/
theorem c10_null_value_indistinguishable_from_absent_witness :
    (0 : Int) < pyOrInt (some 60) 3600
    ∧ ((cacheSet (.mem memCache0) "k" Json.null (some 60) 0 false).1 = true
      ∧ (cacheGet (cacheSet (.mem memCache0) "k" Json.null (some 60) 0
          false).2 "k" 5 false).1 = Json.null
      ∧ (getOrSet (cacheSet (.mem memCache0) "k" Json.null (some 60) 0
          false).2 "k" Json.null (some 60) 5 false).2.2 = true
      ∧ (getOrSet (getOrSet (cacheSet (.mem memCache0) "k" Json.null
          (some 60) 0 false).2 "k" Json.null (some 60) 5 false).2.1 "k"
          Json.null none 10 false).2.2 = true
      ∧ (cacheSet (.redis redisCache0) "k" Json.null (some 60) 0 false).1
          = true
      ∧ (cacheGet (cacheSet (.redis redisCache0) "k" Json.null (some 60) 0
          false).2 "k" 5 false).1 = Json.null
      ∧ (getOrSet (cacheSet (.redis redisCache0) "k" Json.null (some 60) 0
          false).2 "k" Json.null (some 60) 5 false).2.2 = true
      ∧ (getOrSet (getOrSet (cacheSet (.redis redisCache0) "k" Json.null
          (some 60) 0 false).2 "k" Json.null (some 60) 5 false).2.1 "k"
          Json.null none 10 false).2.2 = true) :=
  ⟨by decide,
    c10_null_value_indistinguishable_from_absent memCache0 redisCache0
      "k" (some 60) (some 60) none 0 5 10 (by decide)⟩

end OtakuShelf
